import Mathlib

/-!
Shallow embedding of `run.py` (benchbot_sim_omni simulator daemon).

The daemon state mirrors the fields of class `SimulatorDaemon`; every
lifecycle operation is translated as a pure function
`DaemonState → DaemonState × List Effect`, where the `Effect` trace records
the calls made into the external simulation engine (and the diagnostics
printed).  The result of `check_dirty` depends on the robot pose read live
from the engine, so `tick_simulator` takes that verdict as an oracle
argument `dirty_now`; the trace records each actual evaluation.
-/

set_option autoImplicit false

namespace BenchbotSim


/-- Seven-element pose as parsed by the daemon: orientation quaternion
`(q0,q1,q2,q3)` = (w,x,y,z) followed by translation `(t0,t1,t2)`.
Scalars are modelled as exact rationals. -/
structure Pose where
  q0 : ℚ
  q1 : ℚ
  q2 : ℚ
  q3 : ℚ
  t0 : ℚ
  t1 : ℚ
  t2 : ℚ
deriving DecidableEq

/-- Source constant `DEFAULT_POSE = np.array([1, 0, 0, 0, 0, 0, 0])`. -/
def DEFAULT_POSE : Pose := ⟨1, 0, 0, 0, 0, 0, 0⟩

/-- Source constant `DIRTY_EPSILON_DIST = 5`. -/
def DIRTY_EPSILON_DIST : ℚ := 5

/-- Source constant `DIRTY_EPSILON_YAW = 5`. -/
def DIRTY_EPSILON_YAW : ℚ := 5

/-- Source constant `ROBOT_PRIM_PATH`, the fixed robot prim path /robot. -/
def ROBOT_PRIM_PATH : String := "/robot"

/-- The values of the `ROBOT_COMPONENTS` dict, in insertion order. -/
def clock_path : String := "/ROS_Clock"

def diff_base_path : String := "/robot/ROS_DifferentialBase"

def lidar_path : String := "/robot/ROS_Lidar"

def rgbd_path : String := "/robot/ROS_Camera_Stereo_Left"

def tf_sensors_path : String := "/robot/ROS_Carter_Sensors_Broadcaster"

def tf_path : String := "/robot/ROS_Carter_Broadcaster"

/-- Values of `ROBOT_COMPONENTS` in dict insertion order, as iterated
by the disable loop of `place_robot`. -/
def ROBOT_COMPONENTS_values : List String :=
  [clock_path, diff_base_path, lidar_path, rgbd_path, tf_sensors_path, tf_path]

/-- One observable interaction with the outside world: a call into the
simulation engine, a filesystem touch, or a printed diagnostic. -/
inductive Effect where
  | log (msg : String)
  | openStage (usd_path : String)
  | updateStage
  | addReferenceToStage (usd_path : String) (prim_path : String)
  | setWorldPose (px py pz qw qx qy qz : ℚ)
  | disableComponent (prop_path : String)
  | tickComponent (prop_path : String)
  | simAppCreate (open_usd_arg : Option String)
  | simPlay
  | simStop
  | simStep
  | instUpdate
  | instClose
  | checkDirtyEval
  | checkCollidedEval
  | touchDirtyFile
deriving DecidableEq

/-- The mutable fields of `SimulatorDaemon.__init__`.  `inst` and `sim`
are `Bool` standing for `is not None` of the corresponding Python handles;
likewise `_dc`, `_robot`, `_robot_dc`. -/
structure DaemonState where
  inst : Bool
  sim : Bool
  sim_i : Nat
  sim_collided : Bool
  sim_dirty : Bool
  map_usd : Option String
  robot_usd : Option String
  start_pose : Option Pose
  _map_usd : Option String
  _robot_usd : Option String
  _start_pose : Option Pose
  _dc : Bool
  _robot : Bool
  _robot_dc : Bool
deriving DecidableEq

/-- The state built by `SimulatorDaemon.__init__`. -/
def initState : DaemonState where
  inst := false
  sim := false
  sim_i := 0
  sim_collided := false
  sim_dirty := false
  map_usd := none
  robot_usd := none
  start_pose := none
  _map_usd := none
  _robot_usd := none
  _start_pose := none
  _dc := false
  _robot := false
  _robot_dc := false

/-- Embedding of `SimulatorDaemon.check_collided` (placeholder, always `False`). -/
def check_collided (_s : DaemonState) : Bool := false

/-- Embedding of `SimulatorDaemon.stop_simulation`. -/
def stop_simulation (s : DaemonState) : DaemonState × List Effect :=
  if s.sim = false then
    (s, [.log "Skipping. No running simulation to stop"])
  else if s.inst = false then
    (s, [.log "Skipping. No running simulator found."])
  else
    ({ s with sim := false }, [.simStop])

/-- Embedding of `SimulatorDaemon.start_simulation`. -/
def start_simulation (s : DaemonState) : DaemonState × List Effect :=
  let r1 := if s.sim = true then stop_simulation s else (s, [])
  let s1 := r1.1
  if s1.inst = false ∨ s1.map_usd = none ∨ s1.robot_usd = none then
    (s1, r1.2 ++ [.log "Cannot start simulation. Missing some required state."])
  else
    ({ s1 with
        sim_i := 0
        sim_collided := false
        sim_dirty := false
        sim := true
        _dc := true
        _robot_dc := true },
      r1.2 ++ [.simPlay])

/-- Embedding of `SimulatorDaemon.place_robot`. -/
def place_robot (s : DaemonState) : DaemonState × List Effect :=
  if s.inst = false then
    (s, [.log "No simulator running. Stored robot USD and pose, but not opening."])
  else
    match s.robot_usd with
    | none => (s, [.log "No robot USD selected. Returning."])
    | some robot =>
      let r1 := stop_simulation s
      let s1 := r1.1
      let p := s1.start_pose.getD DEFAULT_POSE
      let r2 :=
        if some robot ≠ s1._robot_usd then
          ({ s1 with _robot := true, _robot_usd := some robot },
            [.addReferenceToStage robot ROBOT_PRIM_PATH, .updateStage])
        else
          (s1, [.log "Skipping robot load; already loaded."])
      let s2 := r2.1
      let r3 :=
        if s2._start_pose ≠ some p then
          ({ s2 with _start_pose := some p },
            [.setWorldPose (p.t0 * 100) (p.t1 * 100) (p.t2 * 100)
              p.q0 p.q1 p.q2 p.q3, .updateStage])
        else
          (s2, [.log "Skipping robot move; already at requested pose."])
      let s3 := r3.1
      let e4 := ROBOT_COMPONENTS_values.map Effect.disableComponent
      let r5 := start_simulation s3
      (r5.1, r1.2 ++ r2.2 ++ r3.2 ++ e4 ++ r5.2)

/-- The body of the `if self.map_usd != self._map_usd` block of
`SimulatorDaemon.open_usd`: invalidate the handles bound to the old stage,
open the new stage, and record it as loaded.  Split out so the reload
claim can name the intermediate state `open_usd` hands to `place_robot`. -/
def open_usd_update_map (m : String) (s1 : DaemonState) : DaemonState × List Effect :=
  if some m ≠ s1._map_usd then
    ({ s1 with
        _dc := false
        _start_pose := none
        _robot := false
        _robot_dc := false
        _robot_usd := none
        _map_usd := some m },
      [.openStage m, .updateStage])
  else
    (s1, [.log "Skipping map load; already loaded."])

/-- Embedding of `SimulatorDaemon.open_usd`. -/
def open_usd (s : DaemonState) : DaemonState × List Effect :=
  if s.inst = false then
    (s, [.log "No simulator running. Stored environment USD, but not opening."])
  else
    match s.map_usd with
    | none => (s, [.log "No environment USD selected. Returning."])
    | some m =>
      let r1 := stop_simulation s
      let r2 := open_usd_update_map m r1.1
      let r3 := place_robot r2.1
      (r3.1, r1.2 ++ r2.2 ++ r3.2)

/-- Embedding of `SimulatorDaemon.start_instance`.  `SimulationApp` is created with
`open_usd = self.map_usd` when a map is stored; `place_robot` is attempted
only in that case (`if env:`). -/
def start_instance (s : DaemonState) : DaemonState × List Effect :=
  if s.inst = true then
    (s, [.log "Instance already running. Please /stop first."])
  else
    let s1 := { s with inst := true }
    match s.map_usd with
    | none => (s1, [.simAppCreate none])
    | some m =>
      let r2 := place_robot s1
      (r2.1, [.simAppCreate (some m)] ++ r2.2)

/-- Embedding of `SimulatorDaemon.stop_instance`. -/
def stop_instance (s : DaemonState) : DaemonState × List Effect :=
  if s.inst = false then
    (s, [.log "No instance is running to stop."])
  else
    let r1 := stop_simulation s
    ({ r1.1 with inst := false }, r1.2 ++ [.instClose])

/-- Embedding of `SimulatorDaemon.tick_simulator`.  `dirty_now` is the verdict
`check_dirty()` would return from the live robot pose of the engine; the trace
records whether it was actually consulted. -/
def tick_simulator (dirty_now : Bool) (s : DaemonState) : DaemonState × List Effect :=
  if s.inst = false then
    (s, [])
  else if s.sim = false then
    (s, [.instUpdate])
  else
    let e60 : List Effect := [.simStep, .tickComponent clock_path]
    let e30 : List Effect :=
      if s.sim_i % 2 = 0 then
        [.tickComponent diff_base_path, .tickComponent lidar_path,
          .tickComponent tf_path, .tickComponent tf_sensors_path]
      else []
    let r10 : DaemonState × List Effect :=
      if s.sim_i % 6 = 0 then
        if s.sim_dirty = false then
          if dirty_now then
            ({ s with sim_dirty := true },
              [.tickComponent rgbd_path, .checkDirtyEval, .touchDirtyFile])
          else
            (s, [.tickComponent rgbd_path, .checkDirtyEval])
        else
          (s, [.tickComponent rgbd_path])
      else (s, [])
    let s10 := r10.1
    let r1 : DaemonState × List Effect :=
      if s10.sim_i % 60 = 0 then
        ({ s10 with sim_collided := check_collided s10 }, [.checkCollidedEval])
      else (s10, [])
    ({ r1.1 with sim_i := r1.1.sim_i + 1 },
      e60 ++ e30 ++ r10.2 ++ r1.2)

/-- The `/open_environment` handler: store the requested map (when the
request carries one), then call `open_usd`. -/
def open_environment (environment : Option String) (s : DaemonState) :
    DaemonState × List Effect :=
  let s1 := match environment with
    | some e => { s with map_usd := some e }
    | none => s
  open_usd s1

/-- The `/place_robot` handler: store the requested robot and start pose
(when given), then call `place_robot`. -/
def place_robot_request (robot : Option String) (pose : Option Pose)
    (s : DaemonState) : DaemonState × List Effect :=
  let s1 := match robot with
    | some r => { s with robot_usd := some r }
    | none => s
  let s2 := match pose with
    | some p => { s1 with start_pose := some p }
    | none => s1
  place_robot s2

/-- The `/restart_sim` handler. -/
def restart_sim (s : DaemonState) : DaemonState × List Effect :=
  let r1 := stop_simulation s
  let r2 := start_simulation r1.1
  (r2.1, r1.2 ++ r2.2)

/-- Run a list of scheduler ticks; each entry of `oracle` is the
`check_dirty` verdict the engine would give on that tick. -/
def run_ticks : List Bool → DaemonState → DaemonState × List Effect
  | [], s => (s, [])
  | o :: os, s =>
    let r1 := tick_simulator o s
    let r2 := run_ticks os r1.1
    (r2.1, r1.2 ++ r2.2)

/-- The daemon states reachable from `__init__` through the control
surface handlers and the scheduler loop. -/
inductive Reachable : DaemonState → Prop where
  | init : Reachable initState
  | open_environment (env : Option String) {s : DaemonState} :
      Reachable s → Reachable (open_environment env s).1
  | place_robot_request (r : Option String) (p : Option Pose) {s : DaemonState} :
      Reachable s → Reachable (place_robot_request r p s).1
  | restart_sim {s : DaemonState} : Reachable s → Reachable (restart_sim s).1
  | start_instance {s : DaemonState} : Reachable s → Reachable (start_instance s).1
  | start_simulation {s : DaemonState} : Reachable s → Reachable (start_simulation s).1
  | stop_simulation {s : DaemonState} : Reachable s → Reachable (stop_simulation s).1
  | stop_instance {s : DaemonState} : Reachable s → Reachable (stop_instance s).1
  | tick (d : Bool) {s : DaemonState} : Reachable s → Reachable (tick_simulator d s).1

/-! ## Pose math (`_to_SE3`, `_dc_tf_to_SE3`, `check_dirty`)

Rigid transforms are represented as a rotation matrix plus a translation,
with exact rational entries; the `SE3`/`UnitQuaternion`
algebra of `spatialmath` is embedded directly.  Only the final comparisons of
`check_dirty` (a Euclidean norm and an angle in degrees) live in `ℝ`. -/

/-- A 3-vector with rational entries. -/
structure Vec3 where
  x : ℚ
  y : ℚ
  z : ℚ
deriving DecidableEq

/-- A 3x3 matrix with rational entries, row major. -/
structure Mat3 where
  a00 : ℚ
  a01 : ℚ
  a02 : ℚ
  a10 : ℚ
  a11 : ℚ
  a12 : ℚ
  a20 : ℚ
  a21 : ℚ
  a22 : ℚ
deriving DecidableEq

def matId : Mat3 := ⟨1, 0, 0, 0, 1, 0, 0, 0, 1⟩

def matMul (A B : Mat3) : Mat3 :=
  ⟨A.a00 * B.a00 + A.a01 * B.a10 + A.a02 * B.a20,
    A.a00 * B.a01 + A.a01 * B.a11 + A.a02 * B.a21,
    A.a00 * B.a02 + A.a01 * B.a12 + A.a02 * B.a22,
    A.a10 * B.a00 + A.a11 * B.a10 + A.a12 * B.a20,
    A.a10 * B.a01 + A.a11 * B.a11 + A.a12 * B.a21,
    A.a10 * B.a02 + A.a11 * B.a12 + A.a12 * B.a22,
    A.a20 * B.a00 + A.a21 * B.a10 + A.a22 * B.a20,
    A.a20 * B.a01 + A.a21 * B.a11 + A.a22 * B.a21,
    A.a20 * B.a02 + A.a21 * B.a12 + A.a22 * B.a22⟩

def matT (A : Mat3) : Mat3 :=
  ⟨A.a00, A.a10, A.a20, A.a01, A.a11, A.a21, A.a02, A.a12, A.a22⟩

def matVec (A : Mat3) (v : Vec3) : Vec3 :=
  ⟨A.a00 * v.x + A.a01 * v.y + A.a02 * v.z,
    A.a10 * v.x + A.a11 * v.y + A.a12 * v.z,
    A.a20 * v.x + A.a21 * v.y + A.a22 * v.z⟩

def vadd (u v : Vec3) : Vec3 := ⟨u.x + v.x, u.y + v.y, u.z + v.z⟩

def vneg (v : Vec3) : Vec3 := ⟨-v.x, -v.y, -v.z⟩

/-- A rigid transform: rotation matrix and translation, as held by a
`spatialmath.SE3` value. -/
structure SE3 where
  R : Mat3
  t : Vec3
deriving DecidableEq

/-- Composition of rigid transforms, `SE3 * SE3`. -/
def se3Mul (A B : SE3) : SE3 := ⟨matMul A.R B.R, vadd (matVec A.R B.t) A.t⟩

/-- Inverse `SE3.inv()`: for a rigid transform the inverse rotation is the
transpose. -/
def se3Inv (A : SE3) : SE3 := ⟨matT A.R, vneg (matVec (matT A.R) A.t)⟩

/-- Rotation part of `UnitQuaternion(w, [x, y, z]).SE3()`:
`UnitQuaternion` normalises its argument and the rotation matrix of
`q / |q|` has the rational closed form `M(q) / |q|^2`. -/
def quatRot (w x y z : ℚ) : Mat3 :=
  let n := w ^ 2 + x ^ 2 + y ^ 2 + z ^ 2
  ⟨(w ^ 2 + x ^ 2 - y ^ 2 - z ^ 2) / n, 2 * (x * y - w * z) / n, 2 * (x * z + w * y) / n,
    2 * (x * y + w * z) / n, (w ^ 2 - x ^ 2 + y ^ 2 - z ^ 2) / n, 2 * (y * z - w * x) / n,
    2 * (x * z - w * y) / n, 2 * (y * z + w * x) / n, (w ^ 2 - x ^ 2 - y ^ 2 + z ^ 2) / n⟩

/-- Embedding of `_to_SE3(pose) = SE3(pose[4::]) * UnitQuaternion(pose[0], pose[1:4]).SE3()`. -/
def _to_SE3 (p : Pose) : SE3 :=
  se3Mul ⟨matId, ⟨p.t0, p.t1, p.t2⟩⟩ ⟨quatRot p.q0 p.q1 p.q2 p.q3, ⟨0, 0, 0⟩⟩

/-- The transform returned by `dc.get_rigid_body_pose`: position `p` and
quaternion `r` in `(x, y, z, w)` order. -/
structure DcTransform where
  px : ℚ
  py : ℚ
  pz : ℚ
  rx : ℚ
  ry : ℚ
  rz : ℚ
  rw : ℚ
deriving DecidableEq

/-- Embedding of `_dc_tf_to_SE3(tf) = SE3(tf.p) * UnitQuaternion(r[3], r[0:3]).SE3()`. -/
def _dc_tf_to_SE3 (tf : DcTransform) : SE3 :=
  se3Mul ⟨matId, ⟨tf.px, tf.py, tf.pz⟩⟩ ⟨quatRot tf.rw tf.rx tf.ry tf.rz, ⟨0, 0, 0⟩⟩

/-- Scaling `self.start_pose * [1, 1, 1, 1, 100, 100, 100]` from `check_dirty`. -/
def dirty_scale (p : Pose) : Pose :=
  ⟨p.q0, p.q1, p.q2, p.q3, p.t0 * 100, p.t1 * 100, p.t2 * 100⟩

/-- The relative transform `delta` computed by `check_dirty` from the
stored start pose and the live rigid-body pose read from the engine. -/
def dirty_delta (start_pose : Pose) (live : DcTransform) : SE3 :=
  se3Mul (se3Inv (_to_SE3 (dirty_scale start_pose))) (_dc_tf_to_SE3 live)

/-- Comparison `np.linalg.norm(delta.t[0:2]) > b`: the planar translation norm
exceeds the bound. -/
def planar_norm_exceeds (t : Vec3) (b : ℚ) : Prop :=
  Real.sqrt ((t.x : ℝ) ^ 2 + (t.y : ℝ) ^ 2) > (b : ℝ)

/-- Comparison `np.abs(delta.rpy(unit=deg)[2]) > b`: the absolute yaw angle in
degrees exceeds the bound.  `rpy[2]` for the default `zyx` order is
`arctan2(R[1,0], R[0,0])` (non-singular case); `arctan2(y, x)` is the
principal argument of `x + y*i`, with the same `(-pi, pi]` range as
the numpy function. -/
def yaw_deg_exceeds (R : Mat3) (b : ℚ) : Prop :=
  |Complex.arg ⟨(R.a00 : ℝ), (R.a10 : ℝ)⟩ * 180 / Real.pi| > (b : ℝ)

/-- Embedding of `SimulatorDaemon.check_dirty`, as a predicate on the stored start
pose and the live pose read from the engine. -/
def check_dirty (start_pose : Pose) (live : DcTransform) : Prop :=
  planar_norm_exceeds (dirty_delta start_pose live).t DIRTY_EPSILON_DIST ∨
  yaw_deg_exceeds (dirty_delta start_pose live).R DIRTY_EPSILON_YAW

/-! ## Effect counting -/

/-- Is the effect an `open_stage` call? -/
def isOpenStage : Effect → Bool
  | .openStage _ => true
  | _ => false

/-- Is the effect an `add_reference_to_stage` call? -/
def isAddReference : Effect → Bool
  | .addReferenceToStage _ _ => true
  | _ => false

/-- Is the effect a `set_world_pose` call? -/
def isSetWorldPose : Effect → Bool
  | .setWorldPose _ _ _ _ _ _ _ => true
  | _ => false

/-- Is the effect a `tick_component` call on the given path? -/
def isTickOf (path : String) : Effect → Bool
  | .tickComponent q => q == path
  | _ => false

/-- Is the effect an evaluation of `check_dirty`? -/
def isCheckDirtyEval : Effect → Bool
  | .checkDirtyEval => true
  | _ => false

/-- Is the effect an evaluation of `check_collided`? -/
def isCheckCollidedEval : Effect → Bool
  | .checkCollidedEval => true
  | _ => false

/-- Is the effect the creation of the `DIRTY_FILE` sentinel? -/
def isTouchDirtyFile : Effect → Bool
  | .touchDirtyFile => true
  | _ => false

/-- Number of effects in a trace satisfying `p`. -/
def countEff (p : Effect → Bool) (tr : List Effect) : Nat := tr.countP p

/-- How many of the counters `i0, i0+1, ..., i0+n-1` are divisible by `m`. -/
def countMod (m i0 n : Nat) : Nat :=
  match n with
  | 0 => 0
  | n + 1 => (if i0 % m = 0 then 1 else 0) + countMod m (i0 + 1) n



/-- A daemon state with a live instance and an active session mid-run:
tick counter at 7, dirty already set, map and robot loaded. -/
def sActive : DaemonState where
  inst := true
  sim := true
  sim_i := 7
  sim_collided := false
  sim_dirty := true
  map_usd := some "env_a.usd"
  robot_usd := some "carter.usd"
  start_pose := none
  _map_usd := some "env_a.usd"
  _robot_usd := some "carter.usd"
  _start_pose := some DEFAULT_POSE
  _dc := true
  _robot := true
  _robot_dc := true

/-- A daemon state just after a successful `start_simulation`. -/
def sFresh : DaemonState where
  inst := true
  sim := true
  sim_i := 0
  sim_collided := false
  sim_dirty := false
  map_usd := some "env_a.usd"
  robot_usd := some "carter.usd"
  start_pose := none
  _map_usd := some "env_a.usd"
  _robot_usd := some "carter.usd"
  _start_pose := some DEFAULT_POSE
  _dc := true
  _robot := true
  _robot_dc := true

/-- Reload-invalidation witness state for C7: an active session whose
desired map differs from the loaded one. -/
def sReload : DaemonState := { sActive with map_usd := some "env_b.usd" }

theorem countEff_append (p : Effect → Bool) (l₁ l₂ : List Effect) :
    countEff p (l₁ ++ l₂) = countEff p l₁ + countEff p l₂ :=
  List.countP_append p l₁ l₂

theorem stop_simulation_fst (s : DaemonState) :
    (stop_simulation s).1 =
      if s.sim = true ∧ s.inst = true then { s with sim := false } else s := by
  unfold stop_simulation
  cases hs : s.sim <;> cases hi : s.inst <;> simp [hs, hi]

@[simp] theorem stop_simulation_inst (s : DaemonState) :
    (stop_simulation s).1.inst = s.inst := by
  rw [stop_simulation_fst]; split_ifs <;> rfl

@[simp] theorem stop_simulation_sim_i (s : DaemonState) :
    (stop_simulation s).1.sim_i = s.sim_i := by
  rw [stop_simulation_fst]; split_ifs <;> rfl

@[simp] theorem stop_simulation_sim_collided (s : DaemonState) :
    (stop_simulation s).1.sim_collided = s.sim_collided := by
  rw [stop_simulation_fst]; split_ifs <;> rfl

@[simp] theorem stop_simulation_sim_dirty (s : DaemonState) :
    (stop_simulation s).1.sim_dirty = s.sim_dirty := by
  rw [stop_simulation_fst]; split_ifs <;> rfl

@[simp] theorem stop_simulation_map_usd (s : DaemonState) :
    (stop_simulation s).1.map_usd = s.map_usd := by
  rw [stop_simulation_fst]; split_ifs <;> rfl

@[simp] theorem stop_simulation_robot_usd (s : DaemonState) :
    (stop_simulation s).1.robot_usd = s.robot_usd := by
  rw [stop_simulation_fst]; split_ifs <;> rfl

@[simp] theorem stop_simulation_start_pose (s : DaemonState) :
    (stop_simulation s).1.start_pose = s.start_pose := by
  rw [stop_simulation_fst]; split_ifs <;> rfl

@[simp] theorem stop_simulation_loaded_map (s : DaemonState) :
    (stop_simulation s).1._map_usd = s._map_usd := by
  rw [stop_simulation_fst]; split_ifs <;> rfl

@[simp] theorem stop_simulation_loaded_robot (s : DaemonState) :
    (stop_simulation s).1._robot_usd = s._robot_usd := by
  rw [stop_simulation_fst]; split_ifs <;> rfl

@[simp] theorem stop_simulation_loaded_pose (s : DaemonState) :
    (stop_simulation s).1._start_pose = s._start_pose := by
  rw [stop_simulation_fst]; split_ifs <;> rfl

@[simp] theorem stop_simulation_dc (s : DaemonState) :
    (stop_simulation s).1._dc = s._dc := by
  rw [stop_simulation_fst]; split_ifs <;> rfl

@[simp] theorem stop_simulation_robot_handle (s : DaemonState) :
    (stop_simulation s).1._robot = s._robot := by
  rw [stop_simulation_fst]; split_ifs <;> rfl

@[simp] theorem stop_simulation_robot_dc (s : DaemonState) :
    (stop_simulation s).1._robot_dc = s._robot_dc := by
  rw [stop_simulation_fst]; split_ifs <;> rfl

theorem stop_simulation_sim (s : DaemonState) :
    (stop_simulation s).1.sim = (s.sim && !s.inst) := by
  rw [stop_simulation_fst]
  cases hs : s.sim <;> cases hi : s.inst <;> simp [hs, hi]

theorem start_simulation_fst (s : DaemonState) :
    (start_simulation s).1 =
      if s.inst = true ∧ s.map_usd ≠ none ∧ s.robot_usd ≠ none then
        { s with sim := true, sim_i := 0, sim_collided := false, sim_dirty := false,
                 _dc := true, _robot_dc := true }
      else if s.sim = true ∧ s.inst = true then { s with sim := false } else s := by
  unfold start_simulation
  cases hs : s.sim <;> cases hi : s.inst <;>
    simp [hs, hi, stop_simulation_fst] <;>
    rcases hm : s.map_usd with _ | m <;> rcases hr : s.robot_usd with _ | r <;> simp

@[simp] theorem start_simulation_inst (s : DaemonState) :
    (start_simulation s).1.inst = s.inst := by
  rw [start_simulation_fst]; split_ifs <;> rfl

@[simp] theorem start_simulation_map_usd (s : DaemonState) :
    (start_simulation s).1.map_usd = s.map_usd := by
  rw [start_simulation_fst]; split_ifs <;> rfl

@[simp] theorem start_simulation_robot_usd (s : DaemonState) :
    (start_simulation s).1.robot_usd = s.robot_usd := by
  rw [start_simulation_fst]; split_ifs <;> rfl

@[simp] theorem start_simulation_start_pose (s : DaemonState) :
    (start_simulation s).1.start_pose = s.start_pose := by
  rw [start_simulation_fst]; split_ifs <;> rfl

@[simp] theorem start_simulation_loaded_map (s : DaemonState) :
    (start_simulation s).1._map_usd = s._map_usd := by
  rw [start_simulation_fst]; split_ifs <;> rfl

@[simp] theorem start_simulation_loaded_robot (s : DaemonState) :
    (start_simulation s).1._robot_usd = s._robot_usd := by
  rw [start_simulation_fst]; split_ifs <;> rfl

@[simp] theorem start_simulation_loaded_pose (s : DaemonState) :
    (start_simulation s).1._start_pose = s._start_pose := by
  rw [start_simulation_fst]; split_ifs <;> rfl

@[simp] theorem start_simulation_robot_handle (s : DaemonState) :
    (start_simulation s).1._robot = s._robot := by
  rw [start_simulation_fst]; split_ifs <;> rfl

theorem stop_simulation_snd (s : DaemonState) :
    (stop_simulation s).2 =
      if s.sim = false then [.log "Skipping. No running simulation to stop"]
      else if s.inst = false then [.log "Skipping. No running simulator found."]
      else [.simStop] := by
  unfold stop_simulation
  split_ifs <;> simp_all

theorem start_simulation_snd (s : DaemonState) :
    (start_simulation s).2 =
      (if s.sim = true then (stop_simulation s).2 else []) ++
      (if s.inst = false ∨ s.map_usd = none ∨ s.robot_usd = none then
        [.log "Cannot start simulation. Missing some required state."]
      else [.simPlay]) := by
  unfold start_simulation
  cases hs : s.sim <;>
    by_cases hg : s.inst = false ∨ s.map_usd = none ∨ s.robot_usd = none <;>
      simp [hs, hg]

theorem countEff_stop_simulation (p : Effect → Bool) (h1 : ∀ m, p (.log m) = false)
    (h2 : p .simStop = false) (s : DaemonState) :
    countEff p (stop_simulation s).2 = 0 := by
  rw [stop_simulation_snd]
  split_ifs <;> simp [countEff, h1, h2]

theorem countEff_start_simulation (p : Effect → Bool) (h1 : ∀ m, p (.log m) = false)
    (h2 : p .simStop = false) (h3 : p .simPlay = false) (s : DaemonState) :
    countEff p (start_simulation s).2 = 0 := by
  rw [start_simulation_snd, countEff_append]
  split_ifs <;> (try rw [countEff_stop_simulation p h1 h2]) <;> simp [countEff, h1, h2, h3]



theorem place_robot_bail_no_inst (s : DaemonState) (hi : s.inst = false) :
    place_robot s =
      (s, [.log "No simulator running. Stored robot USD and pose, but not opening."]) := by
  unfold place_robot; simp [hi]

theorem place_robot_bail_no_robot (s : DaemonState) (hi : s.inst = true)
    (hr : s.robot_usd = none) :
    place_robot s = (s, [.log "No robot USD selected. Returning."]) := by
  unfold place_robot; simp [hi, hr]

theorem place_robot_addRef_count (s : DaemonState) :
    countEff isAddReference (place_robot s).2 =
      if s.inst = true ∧ s.robot_usd ≠ none ∧ s.robot_usd ≠ s._robot_usd then 1
      else 0 := by
  cases hi : s.inst
  · rw [place_robot_bail_no_inst s hi]
    simp [countEff, isAddReference, hi]
  · rcases hr : s.robot_usd with _ | robot
    · rw [place_robot_bail_no_robot s hi hr]
      simp [countEff, isAddReference, hr]
    · have hstop : List.countP isAddReference (stop_simulation s).2 = 0 :=
        countEff_stop_simulation isAddReference (fun _ => rfl) rfl s
      have hstart : ∀ t, List.countP isAddReference (start_simulation t).2 = 0 :=
        fun t => countEff_start_simulation isAddReference (fun _ => rfl) rfl rfl t
      unfold place_robot
      simp only [hi, hr, countEff_append]
      split_ifs <;>
        simp_all [countEff, isAddReference, ROBOT_COMPONENTS_values,
          -List.countP_eq_zero]



theorem place_robot_setPose_count (s : DaemonState) :
    countEff isSetWorldPose (place_robot s).2 =
      if s.inst = true ∧ s.robot_usd ≠ none ∧
          s._start_pose ≠ some (s.start_pose.getD DEFAULT_POSE) then 1
      else 0 := by
  cases hi : s.inst
  · rw [place_robot_bail_no_inst s hi]
    simp [countEff, isSetWorldPose, hi]
  · rcases hr : s.robot_usd with _ | robot
    · rw [place_robot_bail_no_robot s hi hr]
      simp [countEff, isSetWorldPose, hr]
    · have hstop : List.countP isSetWorldPose (stop_simulation s).2 = 0 :=
        countEff_stop_simulation isSetWorldPose (fun _ => rfl) rfl s
      have hstart : ∀ t, List.countP isSetWorldPose (start_simulation t).2 = 0 :=
        fun t => countEff_start_simulation isSetWorldPose (fun _ => rfl) rfl rfl t
      unfold place_robot
      simp only [hi, hr, countEff_append]
      split_ifs <;>
        simp_all [countEff, isSetWorldPose, ROBOT_COMPONENTS_values,
          -List.countP_eq_zero]

theorem place_robot_openStage_count (s : DaemonState) :
    countEff isOpenStage (place_robot s).2 = 0 := by
  cases hi : s.inst
  · rw [place_robot_bail_no_inst s hi]
    simp [countEff, isOpenStage]
  · rcases hr : s.robot_usd with _ | robot
    · rw [place_robot_bail_no_robot s hi hr]
      simp [countEff, isOpenStage]
    · have hstop : List.countP isOpenStage (stop_simulation s).2 = 0 :=
        countEff_stop_simulation isOpenStage (fun _ => rfl) rfl s
      have hstart : ∀ t, List.countP isOpenStage (start_simulation t).2 = 0 :=
        fun t => countEff_start_simulation isOpenStage (fun _ => rfl) rfl rfl t
      unfold place_robot
      simp only [hi, hr, countEff_append]
      split_ifs <;>
        simp_all [countEff, isOpenStage, ROBOT_COMPONENTS_values,
          -List.countP_eq_zero]

theorem place_robot_fields (s : DaemonState) :
    (place_robot s).1.inst = s.inst ∧ (place_robot s).1.map_usd = s.map_usd ∧
    (place_robot s).1.robot_usd = s.robot_usd ∧
    (place_robot s).1.start_pose = s.start_pose ∧
    (place_robot s).1._map_usd = s._map_usd := by
  cases hi : s.inst
  · rw [place_robot_bail_no_inst s hi]; simp [hi]
  · rcases hr : s.robot_usd with _ | robot
    · rw [place_robot_bail_no_robot s hi hr]; simp [hi, hr]
    · unfold place_robot
      simp only [hi, hr]
      split_ifs <;> simp [hi, hr]

theorem place_robot_loaded (s : DaemonState) (robot : String) (hi : s.inst = true)
    (hr : s.robot_usd = some robot) :
    (place_robot s).1._robot_usd = some robot ∧
    (place_robot s).1._start_pose = some (s.start_pose.getD DEFAULT_POSE) := by
  unfold place_robot
  simp only [hi, hr]
  split_ifs <;> simp_all



theorem open_usd_bail_no_inst (s : DaemonState) (hi : s.inst = false) :
    open_usd s =
      (s, [.log "No simulator running. Stored environment USD, but not opening."]) := by
  unfold open_usd; simp [hi]

theorem open_usd_bail_no_map (s : DaemonState) (hi : s.inst = true)
    (hm : s.map_usd = none) :
    open_usd s = (s, [.log "No environment USD selected. Returning."]) := by
  unfold open_usd; simp [hi, hm]

theorem open_usd_main (s : DaemonState) (m : String) (hi : s.inst = true)
    (hm : s.map_usd = some m) :
    open_usd s =
      ((place_robot (open_usd_update_map m (stop_simulation s).1).1).1,
        (stop_simulation s).2 ++ (open_usd_update_map m (stop_simulation s).1).2 ++
          (place_robot (open_usd_update_map m (stop_simulation s).1).1).2) := by
  unfold open_usd; simp [hi, hm]

theorem open_usd_update_map_skip (m : String) (s1 : DaemonState)
    (h : s1._map_usd = some m) :
    open_usd_update_map m s1 = (s1, [.log "Skipping map load; already loaded."]) := by
  unfold open_usd_update_map; simp [h]

theorem open_usd_update_map_load (m : String) (s1 : DaemonState)
    (h : s1._map_usd ≠ some m) :
    open_usd_update_map m s1 =
      ({ s1 with
          _dc := false
          _start_pose := none
          _robot := false
          _robot_dc := false
          _robot_usd := none
          _map_usd := some m },
        [.openStage m, .updateStage]) := by
  unfold open_usd_update_map
  simp [Ne.symm h]

theorem start_instance_already (s : DaemonState) (hi : s.inst = true) :
    start_instance s = (s, [.log "Instance already running. Please /stop first."]) := by
  unfold start_instance; simp [hi]

theorem start_instance_no_map (s : DaemonState) (hi : s.inst = false)
    (hm : s.map_usd = none) :
    start_instance s = ({ s with inst := true }, [.simAppCreate none]) := by
  unfold start_instance; simp [hi, hm]

theorem start_instance_with_map (s : DaemonState) (m : String) (hi : s.inst = false)
    (hm : s.map_usd = some m) :
    start_instance s =
      ((place_robot { s with inst := true }).1,
        [.simAppCreate (some m)] ++ (place_robot { s with inst := true }).2) := by
  unfold start_instance; simp [hi, hm]

theorem stop_instance_no_inst (s : DaemonState) (hi : s.inst = false) :
    stop_instance s = (s, [.log "No instance is running to stop."]) := by
  unfold stop_instance; simp [hi]

theorem stop_instance_main (s : DaemonState) (hi : s.inst = true) :
    stop_instance s =
      ({ (stop_simulation s).1 with inst := false },
        (stop_simulation s).2 ++ [.instClose]) := by
  unfold stop_instance; simp [hi]

theorem tick_no_inst (o : Bool) (s : DaemonState) (hi : s.inst = false) :
    tick_simulator o s = (s, []) := by
  unfold tick_simulator; simp [hi]

theorem tick_idle (o : Bool) (s : DaemonState) (hi : s.inst = true)
    (hs : s.sim = false) :
    tick_simulator o s = (s, [.instUpdate]) := by
  unfold tick_simulator; simp [hi, hs]

theorem tick_active_fst (o : Bool) (s : DaemonState) (hi : s.inst = true)
    (hs : s.sim = true) :
    (tick_simulator o s).1 =
      { s with
          sim_i := s.sim_i + 1
          sim_dirty := s.sim_dirty || (decide (s.sim_i % 6 = 0) && o)
          sim_collided :=
            if s.sim_i % 60 = 0 then false else s.sim_collided } := by
  unfold tick_simulator check_collided
  by_cases h6 : s.sim_i % 6 = 0 <;>
    cases hd : s.sim_dirty <;> cases o <;>
      by_cases h60 : s.sim_i % 60 = 0 <;>
        simp [hi, hs, h6, hd, h60]

theorem tick_active_snd (o : Bool) (s : DaemonState) (hi : s.inst = true)
    (hs : s.sim = true) :
    (tick_simulator o s).2 =
      [.simStep, .tickComponent clock_path] ++
      (if s.sim_i % 2 = 0 then
        [.tickComponent diff_base_path, .tickComponent lidar_path,
          .tickComponent tf_path, .tickComponent tf_sensors_path]
      else []) ++
      (if s.sim_i % 6 = 0 then
        (if s.sim_dirty = false then
          (if o then [.tickComponent rgbd_path, .checkDirtyEval, .touchDirtyFile]
          else [.tickComponent rgbd_path, .checkDirtyEval])
        else [.tickComponent rgbd_path])
      else []) ++
      (if s.sim_i % 60 = 0 then [.checkCollidedEval] else []) := by
  unfold tick_simulator
  by_cases h6 : s.sim_i % 6 = 0 <;>
    cases hd : s.sim_dirty <;> cases o <;>
      by_cases h60 : s.sim_i % 60 = 0 <;>
        simp [hi, hs, h6, hd, h60]



theorem run_ticks_cons (o : Bool) (os : List Bool) (s : DaemonState) :
    run_ticks (o :: os) s =
      ((run_ticks os (tick_simulator o s).1).1,
        (tick_simulator o s).2 ++ (run_ticks os (tick_simulator o s).1).2) := rfl

theorem tick_inst (o : Bool) (s : DaemonState) :
    (tick_simulator o s).1.inst = s.inst := by
  cases hi : s.inst
  · rw [tick_no_inst o s hi]; exact hi
  · cases hs : s.sim
    · rw [tick_idle o s hi hs]; exact hi
    · rw [tick_active_fst o s hi hs]; exact hi

theorem tick_sim (o : Bool) (s : DaemonState) :
    (tick_simulator o s).1.sim = s.sim := by
  cases hi : s.inst
  · rw [tick_no_inst o s hi]
  · cases hs : s.sim
    · rw [tick_idle o s hi hs]; exact hs
    · rw [tick_active_fst o s hi hs]; exact hs

theorem tick_sim_i (o : Bool) (s : DaemonState) (hi : s.inst = true)
    (hs : s.sim = true) :
    (tick_simulator o s).1.sim_i = s.sim_i + 1 := by
  rw [tick_active_fst o s hi hs]

theorem tick_count_clock (o : Bool) (s : DaemonState) (hi : s.inst = true)
    (hs : s.sim = true) :
    countEff (isTickOf clock_path) (tick_simulator o s).2 = 1 := by
  rw [tick_active_snd o s hi hs]
  split_ifs <;> decide

theorem tick_count_diff_base (o : Bool) (s : DaemonState) (hi : s.inst = true)
    (hs : s.sim = true) :
    countEff (isTickOf diff_base_path) (tick_simulator o s).2 =
      if s.sim_i % 2 = 0 then 1 else 0 := by
  rw [tick_active_snd o s hi hs]
  split_ifs <;> decide

theorem tick_count_lidar (o : Bool) (s : DaemonState) (hi : s.inst = true)
    (hs : s.sim = true) :
    countEff (isTickOf lidar_path) (tick_simulator o s).2 =
      if s.sim_i % 2 = 0 then 1 else 0 := by
  rw [tick_active_snd o s hi hs]
  split_ifs <;> decide

theorem tick_count_tf (o : Bool) (s : DaemonState) (hi : s.inst = true)
    (hs : s.sim = true) :
    countEff (isTickOf tf_path) (tick_simulator o s).2 =
      if s.sim_i % 2 = 0 then 1 else 0 := by
  rw [tick_active_snd o s hi hs]
  split_ifs <;> decide

theorem tick_count_tf_sensors (o : Bool) (s : DaemonState) (hi : s.inst = true)
    (hs : s.sim = true) :
    countEff (isTickOf tf_sensors_path) (tick_simulator o s).2 =
      if s.sim_i % 2 = 0 then 1 else 0 := by
  rw [tick_active_snd o s hi hs]
  split_ifs <;> decide

theorem tick_count_rgbd (o : Bool) (s : DaemonState) (hi : s.inst = true)
    (hs : s.sim = true) :
    countEff (isTickOf rgbd_path) (tick_simulator o s).2 =
      if s.sim_i % 6 = 0 then 1 else 0 := by
  rw [tick_active_snd o s hi hs]
  split_ifs <;> decide

theorem tick_count_collided (o : Bool) (s : DaemonState) (hi : s.inst = true)
    (hs : s.sim = true) :
    countEff isCheckCollidedEval (tick_simulator o s).2 =
      if s.sim_i % 60 = 0 then 1 else 0 := by
  rw [tick_active_snd o s hi hs]
  split_ifs <;> decide



theorem run_ticks_counts (os : List Bool) :
    ∀ s : DaemonState, s.inst = true → s.sim = true →
      (run_ticks os s).1.inst = true ∧ (run_ticks os s).1.sim = true ∧
      (run_ticks os s).1.sim_i = s.sim_i + os.length ∧
      countEff (isTickOf clock_path) (run_ticks os s).2 = os.length ∧
      countEff (isTickOf diff_base_path) (run_ticks os s).2 =
        countMod 2 s.sim_i os.length ∧
      countEff (isTickOf lidar_path) (run_ticks os s).2 =
        countMod 2 s.sim_i os.length ∧
      countEff (isTickOf tf_path) (run_ticks os s).2 =
        countMod 2 s.sim_i os.length ∧
      countEff (isTickOf tf_sensors_path) (run_ticks os s).2 =
        countMod 2 s.sim_i os.length ∧
      countEff (isTickOf rgbd_path) (run_ticks os s).2 =
        countMod 6 s.sim_i os.length ∧
      countEff isCheckCollidedEval (run_ticks os s).2 =
        countMod 60 s.sim_i os.length := by
  induction os with
  | nil => intro s hi hs; simp [run_ticks, countEff, countMod, hi, hs]
  | cons o os ih =>
    intro s hi hs
    have hi1 : (tick_simulator o s).1.inst = true := by rw [tick_inst]; exact hi
    have hs1 : (tick_simulator o s).1.sim = true := by rw [tick_sim]; exact hs
    have hstep := tick_sim_i o s hi hs
    obtain ⟨q1, q2, q3, q4, q5, q6, q7, q8, q9, q10⟩ := ih (tick_simulator o s).1 hi1 hs1
    rw [run_ticks_cons]
    refine ⟨q1, q2, ?_, ?_, ?_, ?_, ?_, ?_, ?_, ?_⟩
    · simp only [q3, hstep, List.length_cons]; omega
    · simp only [countEff_append, q4, tick_count_clock o s hi hs, List.length_cons]
      omega
    · simp only [countEff_append, q5, tick_count_diff_base o s hi hs, hstep,
        List.length_cons, countMod]
    · simp only [countEff_append, q6, tick_count_lidar o s hi hs, hstep,
        List.length_cons, countMod]
    · simp only [countEff_append, q7, tick_count_tf o s hi hs, hstep,
        List.length_cons, countMod]
    · simp only [countEff_append, q8, tick_count_tf_sensors o s hi hs, hstep,
        List.length_cons, countMod]
    · simp only [countEff_append, q9, tick_count_rgbd o s hi hs, hstep,
        List.length_cons, countMod]
    · simp only [countEff_append, q10, tick_count_collided o s hi hs, hstep,
        List.length_cons, countMod]



theorem tick_dirty_sticky (o : Bool) (s : DaemonState) (hd : s.sim_dirty = true) :
    (tick_simulator o s).1.sim_dirty = true ∧
    countEff isCheckDirtyEval (tick_simulator o s).2 = 0 ∧
    countEff isTouchDirtyFile (tick_simulator o s).2 = 0 := by
  cases hi : s.inst
  · rw [tick_no_inst o s hi]; exact ⟨hd, rfl, rfl⟩
  · cases hs : s.sim
    · rw [tick_idle o s hi hs]; exact ⟨hd, rfl, rfl⟩
    · rw [tick_active_fst o s hi hs, tick_active_snd o s hi hs]
      refine ⟨by simp [hd], ?_, ?_⟩ <;>
        split_ifs <;> simp_all [countEff, isCheckDirtyEval, isTouchDirtyFile]

theorem tick_touch_count (o : Bool) (s : DaemonState) :
    countEff isTouchDirtyFile (tick_simulator o s).2 =
      if (tick_simulator o s).1.sim_dirty = true ∧ s.sim_dirty = false then 1
      else 0 := by
  cases hi : s.inst
  · rw [tick_no_inst o s hi]; simp [countEff]
  · cases hs : s.sim
    · rw [tick_idle o s hi hs]; simp [countEff, isTouchDirtyFile]
    · rw [tick_active_fst o s hi hs, tick_active_snd o s hi hs]
      cases hd : s.sim_dirty <;> cases o <;>
        by_cases h6 : s.sim_i % 6 = 0 <;>
          split_ifs <;> simp_all [countEff, isTouchDirtyFile, isCheckDirtyEval]

theorem run_ticks_dirty_sticky (os : List Bool) :
    ∀ s : DaemonState, s.sim_dirty = true →
      (run_ticks os s).1.sim_dirty = true ∧
      countEff isCheckDirtyEval (run_ticks os s).2 = 0 ∧
      countEff isTouchDirtyFile (run_ticks os s).2 = 0 := by
  induction os with
  | nil => intro s hd; exact ⟨hd, rfl, rfl⟩
  | cons o os ih =>
    intro s hd
    obtain ⟨p1, p2, p3⟩ := tick_dirty_sticky o s hd
    obtain ⟨q1, q2, q3⟩ := ih (tick_simulator o s).1 p1
    rw [run_ticks_cons]
    exact ⟨q1, by simp [countEff_append, p2, q2], by simp [countEff_append, p3, q3]⟩

theorem run_ticks_touch_total (os : List Bool) :
    ∀ s : DaemonState,
      countEff isTouchDirtyFile (run_ticks os s).2 =
        if (run_ticks os s).1.sim_dirty = true ∧ s.sim_dirty = false then 1
        else 0 := by
  induction os with
  | nil =>
    intro s
    simp [run_ticks, countEff]
  | cons o os ih =>
    intro s
    rw [run_ticks_cons]
    simp only [countEff_append, tick_touch_count o s, ih (tick_simulator o s).1]
    cases hd0 : s.sim_dirty
    · cases hd1 : (tick_simulator o s).1.sim_dirty
      · simp [hd0, hd1]
      · have hd2 : (run_ticks os (tick_simulator o s).1).1.sim_dirty = true :=
          (run_ticks_dirty_sticky os (tick_simulator o s).1 hd1).1
        simp [hd0, hd1, hd2]
    · have hd1 : (tick_simulator o s).1.sim_dirty = true :=
        (tick_dirty_sticky o s hd0).1
      have hd2 : (run_ticks os (tick_simulator o s).1).1.sim_dirty = true :=
        (run_ticks_dirty_sticky os (tick_simulator o s).1 hd1).1
      simp [hd0, hd1, hd2]



/-- The session invariant: an active session implies an instance and
configured map and robot targets. -/
def Inv (s : DaemonState) : Prop :=
  s.sim = true → s.inst = true ∧ s.map_usd ≠ none ∧ s.robot_usd ≠ none

theorem inv_init : Inv initState := by
  intro h; simp [initState] at h

theorem start_simulation_sim_eq (s : DaemonState) :
    (start_simulation s).1.sim = true ↔
      (s.inst = true ∧ s.map_usd ≠ none ∧ s.robot_usd ≠ none) ∨
      (s.sim = true ∧ s.inst = false) := by
  rw [start_simulation_fst]
  by_cases hp : s.inst = true ∧ s.map_usd ≠ none ∧ s.robot_usd ≠ none
  · rw [if_pos hp]; simp [hp]
  · rw [if_neg hp]
    by_cases hq : s.sim = true ∧ s.inst = true
    · rw [if_pos hq]
      constructor
      · intro hsim; simp at hsim
      · rintro (hp2 | hq2)
        · exact absurd hp2 hp
        · exact absurd hq.2 (by simp [hq2.2])
    · rw [if_neg hq]
      constructor
      · intro hsim
        right
        refine ⟨hsim, ?_⟩
        cases hi : s.inst
        · rfl
        · exact absurd ⟨hsim, hi⟩ hq
      · rintro (h | h)
        · exact absurd h hp
        · exact h.1

theorem inv_stop_simulation (s : DaemonState) (h : Inv s) :
    Inv (stop_simulation s).1 := by
  intro hsim
  rw [stop_simulation_sim] at hsim
  rcases Bool.and_eq_true_iff.mp hsim with ⟨h1, h2⟩
  exact absurd (h h1).1 (by simp_all)

theorem inv_start_simulation (s : DaemonState) (h : Inv s) :
    Inv (start_simulation s).1 := by
  intro hsim
  rcases (start_simulation_sim_eq s).mp hsim with hp | hq
  · have : (start_simulation s).1.inst = s.inst := start_simulation_inst s
    simp only [start_simulation_inst, start_simulation_map_usd,
      start_simulation_robot_usd]
    exact hp
  · exact absurd (h hq.1).1 (by simp [hq.2])

theorem place_robot_sim (s : DaemonState) (robot : String) (hi : s.inst = true)
    (hr : s.robot_usd = some robot) :
    ((place_robot s).1.sim = true ↔ s.map_usd ≠ none) := by
  unfold place_robot
  simp only [hi, hr]
  split_ifs <;>
    first
      | (exfalso; simp_all; done)
      | (rw [start_simulation_sim_eq]; simp [hi, hr])

theorem inv_place_robot (s : DaemonState) (h : Inv s) : Inv (place_robot s).1 := by
  cases hi : s.inst
  · rw [place_robot_bail_no_inst s hi]; exact h
  · rcases hr : s.robot_usd with _ | robot
    · rw [place_robot_bail_no_robot s hi hr]; exact h
    · intro hsim
      rw [place_robot_sim s robot hi hr] at hsim
      obtain ⟨f1, f2, f3, _, _⟩ := place_robot_fields s
      rw [f1, f2, f3, hi, hr]
      exact ⟨rfl, hsim, by simp⟩

theorem open_usd_update_map_fields (m : String) (s1 : DaemonState) :
    (open_usd_update_map m s1).1.sim = s1.sim ∧
    (open_usd_update_map m s1).1.inst = s1.inst ∧
    (open_usd_update_map m s1).1.map_usd = s1.map_usd ∧
    (open_usd_update_map m s1).1.robot_usd = s1.robot_usd ∧
    (open_usd_update_map m s1).1.start_pose = s1.start_pose := by
  unfold open_usd_update_map
  split_ifs <;> simp

theorem inv_open_usd (s : DaemonState) (h : Inv s) : Inv (open_usd s).1 := by
  cases hi : s.inst
  · rw [open_usd_bail_no_inst s hi]; exact h
  · rcases hm : s.map_usd with _ | m
    · rw [open_usd_bail_no_map s hi hm]; exact h
    · rw [open_usd_main s m hi hm]
      apply inv_place_robot
      intro hsim
      obtain ⟨g1, _, _, _, _⟩ := open_usd_update_map_fields m (stop_simulation s).1
      rw [g1, stop_simulation_sim, hi] at hsim
      simp at hsim

theorem inv_start_instance (s : DaemonState) (h : Inv s) :
    Inv (start_instance s).1 := by
  cases hi : s.inst
  · rcases hm : s.map_usd with _ | m
    · rw [start_instance_no_map s hi hm]
      intro hsim
      exact absurd (h hsim).1 (by simp [hi])
    · rw [start_instance_with_map s m hi hm]
      apply inv_place_robot
      intro hsim
      exact absurd (h hsim).1 (by simp [hi])
  · rw [start_instance_already s hi]; exact h

theorem inv_stop_instance (s : DaemonState) (h : Inv s) :
    Inv (stop_instance s).1 := by
  cases hi : s.inst
  · rw [stop_instance_no_inst s hi]; exact h
  · rw [stop_instance_main s hi]
    intro hsim
    rw [show ({ (stop_simulation s).1 with inst := false } : DaemonState).sim
        = (stop_simulation s).1.sim from rfl, stop_simulation_sim, hi] at hsim
    simp at hsim

theorem tick_map_usd (o : Bool) (s : DaemonState) :
    (tick_simulator o s).1.map_usd = s.map_usd := by
  cases hi : s.inst
  · rw [tick_no_inst o s hi]
  · cases hs : s.sim
    · rw [tick_idle o s hi hs]
    · rw [tick_active_fst o s hi hs]

theorem tick_robot_usd (o : Bool) (s : DaemonState) :
    (tick_simulator o s).1.robot_usd = s.robot_usd := by
  cases hi : s.inst
  · rw [tick_no_inst o s hi]
  · cases hs : s.sim
    · rw [tick_idle o s hi hs]
    · rw [tick_active_fst o s hi hs]

theorem inv_tick (o : Bool) (s : DaemonState) (h : Inv s) :
    Inv (tick_simulator o s).1 := by
  intro hsim
  rw [tick_sim] at hsim
  rw [tick_inst, tick_map_usd, tick_robot_usd]
  exact h hsim

theorem inv_open_environment (env : Option String) (s : DaemonState) (h : Inv s) :
    Inv (open_environment env s).1 := by
  unfold open_environment
  rcases env with _ | e
  · exact inv_open_usd s h
  · apply inv_open_usd
    intro hsim
    obtain ⟨h1, _, h3⟩ := h hsim
    exact ⟨h1, by simp, h3⟩

theorem inv_place_robot_request (r : Option String) (p : Option Pose)
    (s : DaemonState) (h : Inv s) : Inv (place_robot_request r p s).1 := by
  unfold place_robot_request
  apply inv_place_robot
  rcases r with _ | r <;> rcases p with _ | p <;>
    (intro hsim; obtain ⟨h1, h2, h3⟩ := h hsim) <;>
    exact ⟨h1, h2, by simp_all⟩

theorem inv_restart_sim (s : DaemonState) (h : Inv s) : Inv (restart_sim s).1 := by
  unfold restart_sim
  exact inv_start_simulation _ (inv_stop_simulation s h)

/-- Every reachable daemon state satisfies the session invariant. -/
theorem reachable_inv (s : DaemonState) (h : Reachable s) : Inv s := by
  induction h with
  | init => exact inv_init
  | open_environment env h ih => exact inv_open_environment env _ ih
  | place_robot_request r p h ih => exact inv_place_robot_request r p _ ih
  | restart_sim h ih => exact inv_restart_sim _ ih
  | start_instance h ih => exact inv_start_instance _ ih
  | start_simulation h ih => exact inv_start_simulation _ ih
  | stop_simulation h ih => exact inv_stop_simulation _ ih
  | stop_instance h ih => exact inv_stop_instance _ ih
  | tick d h ih => exact inv_tick d _ ih



/-- C8: `stop_instance` always leaves the Session absent afterward: with an
Instance present it stops any active Session and then tears down the
Instance (the `simStop` engine call precedes `instClose` in the trace);
with no Instance it is a logged no-op. -/
theorem c8_stop_instance (s : DaemonState) :
    (s.inst = true →
      (stop_instance s).1.sim = false ∧ (stop_instance s).1.inst = false ∧
      (s.sim = true → (stop_instance s).2 = [.simStop, .instClose])) ∧
    (s.inst = false →
      stop_instance s = (s, [.log "No instance is running to stop."])) := by
  constructor
  · intro hi
    rw [stop_instance_main s hi]
    refine ⟨?_, rfl, ?_⟩
    · show (stop_simulation s).1.sim = false
      rw [stop_simulation_sim, hi]
      simp
    · intro hs
      rw [stop_simulation_snd, hs, hi]
      simp
  · intro hi
    exact stop_instance_no_inst s hi

/-- C8 witness at a concrete active state. -/
theorem c8_stop_instance_witness :
    (stop_instance sActive).1.sim = false ∧ (stop_instance sActive).1.inst = false ∧
    (stop_instance sActive).2 = [.simStop, .instClose] := by
  obtain ⟨h, _⟩ := c8_stop_instance sActive
  obtain ⟨h1, h2, h3⟩ := h rfl
  exact ⟨h1, h2, h3 rfl⟩

/-- C10: the scheduler tick is a strict frame: with no Instance it is a
complete no-op (no state change, no effects); with an Instance but no
Session it performs exactly the idle update and changes no state; the
counter `sim_i` and the `sim_dirty`/`sim_collided` flags are touched only
on the active-session path, where `sim_i` increases by exactly 1. -/
theorem c10_tick_frame (o : Bool) (s : DaemonState) :
    (s.inst = false → tick_simulator o s = (s, [])) ∧
    (s.inst = true → s.sim = false → tick_simulator o s = (s, [.instUpdate])) ∧
    (s.inst = true → s.sim = true →
      (tick_simulator o s).1.sim_i = s.sim_i + 1) := by
  refine ⟨fun hi => tick_no_inst o s hi, fun hi hs => tick_idle o s hi hs,
    fun hi hs => tick_sim_i o s hi hs⟩

/-- C10 witness: concrete evaluations on states with no instance, an idle
instance, and an active session. -/
theorem c10_tick_frame_witness :
    tick_simulator true initState = (initState, []) ∧
    (tick_simulator true sFresh).1.sim_i = 1 := by
  constructor
  · exact (c10_tick_frame true initState).1 rfl
  · exact (c10_tick_frame true sFresh).2.2 rfl rfl



/-- Running `start_simulation` from a state whose (post-stop) guard passes yields
a fresh session: counter 0, flags cleared, session live. -/
theorem start_simulation_success (s : DaemonState)
    (h : s.inst = true ∧ s.map_usd ≠ none ∧ s.robot_usd ≠ none) :
    (start_simulation s).1 =
      { s with
          sim := true
          sim_i := 0
          sim_collided := false
          sim_dirty := false
          _dc := true
          _robot_dc := true } := by
  rw [start_simulation_fst, if_pos h]

/-- When an instance is present and map and robot targets are set,
`place_robot` ends in a (re)started session. -/
theorem place_robot_started (s : DaemonState) (robot : String) (hi : s.inst = true)
    (hr : s.robot_usd = some robot) (hm : s.map_usd ≠ none) :
    (place_robot s).1.sim_i = 0 ∧ (place_robot s).1.sim = true ∧
    (place_robot s).1.sim_dirty = false ∧ (place_robot s).1.sim_collided = false := by
  unfold place_robot
  simp only [hi, hr]
  split_ifs <;>
    first
      | (exfalso; simp_all; done)
      | (rw [start_simulation_success _ (by simp [hi, hm, hr])]
         exact ⟨rfl, rfl, rfl, rfl⟩)

/-- C6 counterexample: starting the simulation while a Session is active
does NOT leave the daemon unchanged — at `sActive` (tick counter 7, dirty
set) the call resets the counter and flags. -/
theorem c6_counterexample :
    sActive.sim = true ∧ (start_simulation sActive).1 ≠ sActive := by
  refine ⟨rfl, ?_⟩
  intro h
  have h7 : (start_simulation sActive).1.sim_i = sActive.sim_i := by rw [h]
  rw [start_simulation_success sActive (by decide)] at h7
  simp [sActive] at h7

/-- C6 amended: calling `start_instance` with an Instance present is a
logged no-op, but calling `start_simulation` with an active Session is a
restart, not a no-op: it stops the Session and starts a fresh one with
`i = 0` and both flags cleared. -/
theorem c6_amended_double_start (s : DaemonState) :
    (s.inst = true →
      start_instance s =
        (s, [.log "Instance already running. Please /stop first."])) ∧
    (s.sim = true → s.inst = true → s.map_usd ≠ none → s.robot_usd ≠ none →
      (start_simulation s).1 =
        { s with
            sim := true
            sim_i := 0
            sim_collided := false
            sim_dirty := false
            _dc := true
            _robot_dc := true } ∧
      (start_simulation s).2 = [.simStop, .simPlay]) := by
  constructor
  · exact fun hi => start_instance_already s hi
  · intro hs hi hm hr
    constructor
    · exact start_simulation_success s ⟨hi, hm, hr⟩
    · rw [start_simulation_snd, if_pos hs, if_neg (by simp [hi, hm, hr]),
        stop_simulation_snd, if_neg (by simp [hs]), if_neg (by simp [hi])]
      rfl

/-- C6 amended witness at `sActive`. -/
theorem c6_amended_double_start_witness :
    start_instance sActive =
      (sActive, [.log "Instance already running. Please /stop first."]) ∧
    (start_simulation sActive).1.sim_i = 0 ∧
    (start_simulation sActive).1.sim = true := by
  have h := (c6_amended_double_start sActive).2 rfl rfl (by decide) (by decide)
  exact ⟨(c6_amended_double_start sActive).1 rfl, by rw [h.1], by rw [h.1]⟩

/-- C5 counterexample: with an Instance present and the desired map equal
to the loaded map, `open_usd` is NOT a no-op — at `sActive` it stops the
running Session and restarts it, resetting the tick counter from 7 to 0. -/
theorem c5_counterexample :
    sActive.inst = true ∧ sActive.map_usd = sActive._map_usd ∧
    (open_usd sActive).1 ≠ sActive := by
  refine ⟨rfl, rfl, ?_⟩
  intro h
  have h0 : (open_usd sActive).1.sim_i = 0 := by
    rw [open_usd_main sActive "env_a.usd" rfl rfl,
      open_usd_update_map_skip _ _ (by rw [stop_simulation_loaded_map]; rfl)]
    exact (place_robot_started (stop_simulation sActive).1 "carter.usd"
      (by simp [sActive]) (by simp [sActive]) (by simp [sActive])).1
  rw [h] at h0
  simp [sActive] at h0



theorem open_usd_openStage_count (s : DaemonState) :
    countEff isOpenStage (open_usd s).2 =
      if s.inst = true ∧ s.map_usd ≠ none ∧ s.map_usd ≠ s._map_usd then 1
      else 0 := by
  cases hi : s.inst
  · rw [open_usd_bail_no_inst s hi]
    simp [countEff, isOpenStage, hi]
  · rcases hm : s.map_usd with _ | m
    · rw [open_usd_bail_no_map s hi hm]
      simp [countEff, isOpenStage, hm]
    · rw [open_usd_main s m hi hm]
      simp only [countEff_append]
      rw [countEff_stop_simulation isOpenStage (fun _ => rfl) rfl,
        place_robot_openStage_count]
      by_cases hd : s._map_usd = some m
      · rw [open_usd_update_map_skip m _ (by rw [stop_simulation_loaded_map]; exact hd)]
        simp [countEff, isOpenStage, hi, hm, hd]
      · rw [open_usd_update_map_load m _ (by rw [stop_simulation_loaded_map]; exact hd)]
        simp [countEff, isOpenStage, Ne.symm hd]

theorem open_usd_inst (s : DaemonState) : (open_usd s).1.inst = s.inst := by
  cases hi : s.inst
  · rw [open_usd_bail_no_inst s hi]; exact hi
  · rcases hm : s.map_usd with _ | m
    · rw [open_usd_bail_no_map s hi hm]; exact hi
    · rw [open_usd_main s m hi hm]
      show (place_robot _).1.inst = true
      obtain ⟨f1, _, _, _, _⟩ := place_robot_fields (open_usd_update_map m (stop_simulation s).1).1
      rw [f1]
      obtain ⟨_, g2, _, _, _⟩ := open_usd_update_map_fields m (stop_simulation s).1
      rw [g2, stop_simulation_inst]
      exact hi

theorem open_usd_map_usd (s : DaemonState) : (open_usd s).1.map_usd = s.map_usd := by
  cases hi : s.inst
  · rw [open_usd_bail_no_inst s hi]
  · rcases hm : s.map_usd with _ | m
    · rw [open_usd_bail_no_map s hi hm]; exact hm
    · rw [open_usd_main s m hi hm]
      show (place_robot _).1.map_usd = _
      obtain ⟨_, f2, _, _, _⟩ := place_robot_fields (open_usd_update_map m (stop_simulation s).1).1
      rw [f2]
      obtain ⟨_, _, g3, _, _⟩ := open_usd_update_map_fields m (stop_simulation s).1
      rw [g3, stop_simulation_map_usd]
      exact hm

theorem open_usd_loaded_map (s : DaemonState) (m : String) (hi : s.inst = true)
    (hm : s.map_usd = some m) : (open_usd s).1._map_usd = some m := by
  rw [open_usd_main s m hi hm]
  show (place_robot _).1._map_usd = _
  obtain ⟨_, _, _, _, f5⟩ := place_robot_fields (open_usd_update_map m (stop_simulation s).1).1
  rw [f5]
  by_cases hd : s._map_usd = some m
  · rw [open_usd_update_map_skip m _ (by rw [stop_simulation_loaded_map]; exact hd)]
    rw [stop_simulation_loaded_map]
    exact hd
  · rw [open_usd_update_map_load m _ (by rw [stop_simulation_loaded_map]; exact hd)]

/-- C5 amended: when the desired map equals the loaded map (Instance
present), `open_usd` issues no engine `open_stage` call and keeps
`_map_usd`, but it is not a no-op on the daemon state: it unconditionally
stops any running simulation and then re-runs `place_robot` (which
restarts the session when a robot is configured). -/
theorem c5_amended_same_map (s : DaemonState) (m : String) (hi : s.inst = true)
    (hm : s.map_usd = some m) (hl : s._map_usd = some m) :
    countEff isOpenStage (open_usd s).2 = 0 ∧
    (open_usd s).1._map_usd = some m ∧
    open_usd s =
      ((place_robot (stop_simulation s).1).1,
        (stop_simulation s).2 ++ [.log "Skipping map load; already loaded."] ++
          (place_robot (stop_simulation s).1).2) := by
  have hskip := open_usd_update_map_skip m (stop_simulation s).1
    (by rw [stop_simulation_loaded_map]; exact hl)
  refine ⟨?_, open_usd_loaded_map s m hi hm, ?_⟩
  · rw [open_usd_openStage_count]
    simp [hm, hl]
  · rw [open_usd_main s m hi hm, hskip]

/-- C5 amended witness at `sActive`: no `open_stage` call and the loaded
map is preserved. -/
theorem c5_amended_same_map_witness :
    countEff isOpenStage (open_usd sActive).2 = 0 ∧
    (open_usd sActive).1._map_usd = some "env_a.usd" := by
  have h := c5_amended_same_map sActive "env_a.usd" rfl rfl rfl
  exact ⟨h.1, h.2.1⟩



/-- C7: loading a different map while a Session is active stops the
Session first (`simStop` precedes `openStage` in the trace), clears the
loaded-robot, loaded-pose and pose-query-handle bindings together with
recording the new loaded map, and only then hands the state to
`place_robot`. -/
theorem c7_reload_invalidation (s : DaemonState) (m : String) (hsim : s.sim = true)
    (hi : s.inst = true) (hm : s.map_usd = some m) (hdiff : s._map_usd ≠ some m) :
    (stop_simulation s).1.sim = false ∧
    (open_usd_update_map m (stop_simulation s).1).1 =
      { s with
          sim := false
          _map_usd := some m
          _robot_usd := none
          _start_pose := none
          _dc := false
          _robot := false
          _robot_dc := false } ∧
    open_usd s =
      ((place_robot (open_usd_update_map m (stop_simulation s).1).1).1,
        [Effect.simStop, Effect.openStage m, Effect.updateStage] ++
          (place_robot (open_usd_update_map m (stop_simulation s).1).1).2) := by
  have hstop : stop_simulation s = ({ s with sim := false }, [.simStop]) := by
    unfold stop_simulation; simp [hsim, hi]
  have hload := open_usd_update_map_load m (stop_simulation s).1
    (by rw [stop_simulation_loaded_map]; exact hdiff)
  refine ⟨by rw [hstop], ?_, ?_⟩
  · rw [hload, hstop]
  · rw [open_usd_main s m hi hm, hload, hstop]
    simp

/-- C7 witness at a concrete active session with a different desired map. -/
theorem c7_reload_invalidation_witness :
    (stop_simulation sReload).1.sim = false ∧
    (open_usd_update_map "env_b.usd" (stop_simulation sReload).1).1._robot_usd =
      none ∧
    (open_usd_update_map "env_b.usd" (stop_simulation sReload).1).1._map_usd =
      some "env_b.usd" := by
  have h := c7_reload_invalidation sReload "env_b.usd" rfl rfl rfl (by decide)
  exact ⟨h.1, by rw [h.2.1], by rw [h.2.1]⟩



/-- C1: for every reachable daemon state, `start_simulation` creates a
Session only when an Instance is present and both the map and the robot
are configured/loaded; whenever that precondition fails the call is a
strict no-op that only prints a diagnostic.  This covers states produced
by `start_instance` opening a map directly (there `map_usd` is set while
`_map_usd` stays `none`, and the guard that gates the Session holds). -/
theorem c1_start_simulation_safety (s : DaemonState) (hreach : Reachable s) :
    ((start_simulation s).1.sim = true →
      s.inst = true ∧ s.map_usd ≠ none ∧ s.robot_usd ≠ none) ∧
    (¬(s.inst = true ∧ s.map_usd ≠ none ∧ s.robot_usd ≠ none) →
      start_simulation s =
        (s, [.log "Cannot start simulation. Missing some required state."])) := by
  have hinv := reachable_inv s hreach
  constructor
  · intro hsim
    rcases (start_simulation_sim_eq s).mp hsim with hp | hq
    · exact hp
    · exact absurd (hinv hq.1).1 (by simp [hq.2])
  · intro hp
    have hsim : s.sim = false := by
      cases hs' : s.sim
      · rfl
      · exact absurd (hinv hs') hp
    have hg : s.inst = false ∨ s.map_usd = none ∨ s.robot_usd = none := by
      by_contra hcon
      push_neg at hcon
      exact hp ⟨by simpa using hcon.1, hcon.2.1, hcon.2.2⟩
    have h1 := start_simulation_fst s
    rw [if_neg hp, if_neg (by simp [hsim])] at h1
    have h2 := start_simulation_snd s
    rw [if_neg (by simp [hsim]), if_pos hg] at h2
    exact Prod.ext_iff.mpr ⟨h1, by rw [h2]; rfl⟩

/-- C1 witness: at the freshly initialised state the precondition fails
and the call is the logged no-op. -/
theorem c1_start_simulation_safety_witness :
    start_simulation initState =
      (initState, [.log "Cannot start simulation. Missing some required state."]) :=
  (c1_start_simulation_safety initState Reachable.init).2 (by decide)

/-- C2: over any 60 consecutive scheduler ticks of an active Session
starting at counter 0, the clock ticks 60 times, each 30 Hz component 30
times, the stereo camera 10 times, and the collision check is evaluated
exactly once — namely on the tick with `i % 60 = 0`; the counter
increases by exactly 1 per tick. -/
theorem c2_scheduler_cadence (os : List Bool) (s : DaemonState)
    (hlen : os.length = 60) (hinst : s.inst = true) (hsim : s.sim = true)
    (hzero : s.sim_i = 0) :
    countEff (isTickOf clock_path) (run_ticks os s).2 = 60 ∧
    countEff (isTickOf diff_base_path) (run_ticks os s).2 = 30 ∧
    countEff (isTickOf lidar_path) (run_ticks os s).2 = 30 ∧
    countEff (isTickOf tf_path) (run_ticks os s).2 = 30 ∧
    countEff (isTickOf tf_sensors_path) (run_ticks os s).2 = 30 ∧
    countEff (isTickOf rgbd_path) (run_ticks os s).2 = 10 ∧
    countEff isCheckCollidedEval (run_ticks os s).2 = 1 ∧
    (∀ (o : Bool) (t : DaemonState), t.inst = true → t.sim = true →
      countEff isCheckCollidedEval (tick_simulator o t).2 =
        if t.sim_i % 60 = 0 then 1 else 0) ∧
    (run_ticks os s).1.sim_i = 60 ∧
    (∀ (o : Bool) (t : DaemonState), t.inst = true → t.sim = true →
      (tick_simulator o t).1.sim_i = t.sim_i + 1) := by
  obtain ⟨_, _, q3, q4, q5, q6, q7, q8, q9, q10⟩ := run_ticks_counts os s hinst hsim
  simp only [hzero, hlen] at q3 q4 q5 q6 q7 q8 q9 q10
  refine ⟨q4, ?_, ?_, ?_, ?_, ?_, ?_, tick_count_collided, by rw [q3], tick_sim_i⟩
  · rw [q5]; decide
  · rw [q6]; decide
  · rw [q7]; decide
  · rw [q8]; decide
  · rw [q9]; decide
  · rw [q10]; decide

/-- C2 witness: a concrete 60-tick run from a fresh session. -/
theorem c2_scheduler_cadence_witness :
    countEff (isTickOf clock_path)
        (run_ticks (List.replicate 60 false) sFresh).2 = 60 ∧
    countEff isCheckCollidedEval
        (run_ticks (List.replicate 60 false) sFresh).2 = 1 := by
  have h := c2_scheduler_cadence (List.replicate 60 false) sFresh (by simp) rfl rfl rfl
  exact ⟨h.1, h.2.2.2.2.2.2.1⟩



/-- C4: the dirty flag is sticky per Session: once `sim_dirty` is true,
any further run of scheduler ticks never evaluates `check_dirty` again,
never touches the sentinel file again, and never resets the flag; over any
tick run the sentinel is touched exactly once if the flag transitions from
false to true and never otherwise; only a successful `start_simulation`
resets the flag to false. -/
theorem c4_dirty_sticky (os : List Bool) (s : DaemonState) :
    (s.sim_dirty = true →
      (run_ticks os s).1.sim_dirty = true ∧
      countEff isCheckDirtyEval (run_ticks os s).2 = 0 ∧
      countEff isTouchDirtyFile (run_ticks os s).2 = 0) ∧
    (countEff isTouchDirtyFile (run_ticks os s).2 =
      if (run_ticks os s).1.sim_dirty = true ∧ s.sim_dirty = false then 1
      else 0) ∧
    (∀ t : DaemonState, t.inst = true → t.map_usd ≠ none → t.robot_usd ≠ none →
      (start_simulation t).1.sim_dirty = false) := by
  refine ⟨run_ticks_dirty_sticky os s, run_ticks_touch_total os s, ?_⟩
  intro t hi hm hr
  rw [start_simulation_success t ⟨hi, hm, hr⟩]

/-- C4 witness: two further ticks of an already-dirty session leave the
flag set and neither re-evaluate the drift check nor re-touch the file. -/
theorem c4_dirty_sticky_witness :
    (run_ticks [true, false] sActive).1.sim_dirty = true ∧
    countEff isCheckDirtyEval (run_ticks [true, false] sActive).2 = 0 ∧
    countEff isTouchDirtyFile (run_ticks [true, false] sActive).2 = 0 :=
  (c4_dirty_sticky [true, false] sActive).1 rfl

/-- C3: idempotence of resource loading: two consecutive
`open_environment` requests for the same map perform at most one engine
`open_stage` call in total; two consecutive `place_robot` requests with
the same robot and pose perform at most one `add_reference_to_stage` and
at most one `set_world_pose` in total. -/
theorem c3_idempotent_loading (m r : String) (p : Pose) (s : DaemonState) :
    countEff isOpenStage ((open_environment (some m) s).2 ++
        (open_environment (some m) (open_environment (some m) s).1).2) ≤ 1 ∧
    countEff isAddReference ((place_robot_request (some r) (some p) s).2 ++
        (place_robot_request (some r) (some p)
          (place_robot_request (some r) (some p) s).1).2) ≤ 1 ∧
    countEff isSetWorldPose ((place_robot_request (some r) (some p) s).2 ++
        (place_robot_request (some r) (some p)
          (place_robot_request (some r) (some p) s).1).2) ≤ 1 := by
  have henv : ∀ t : DaemonState,
      open_environment (some m) t = open_usd { t with map_usd := some m } :=
    fun t => rfl
  have hreq : ∀ t : DaemonState,
      place_robot_request (some r) (some p) t =
        place_robot { t with robot_usd := some r, start_pose := some p } :=
    fun t => rfl
  refine ⟨?_, ?_, ?_⟩
  · rw [countEff_append, henv s,
      henv ((open_usd { s with map_usd := some m }).1),
      open_usd_openStage_count, open_usd_openStage_count]
    cases hi : s.inst
    · split_ifs <;>
        first
          | omega
          | (exfalso; simp_all [open_usd_inst]; done)
    · have hload : (open_usd { s with map_usd := some m }).1._map_usd = some m :=
        open_usd_loaded_map _ m (by simp [hi]) (by simp)
      split_ifs <;>
        first
          | omega
          | (exfalso; simp_all; done)
  · rw [countEff_append, hreq s,
      hreq ((place_robot { s with robot_usd := some r, start_pose := some p }).1),
      place_robot_addRef_count, place_robot_addRef_count]
    cases hi : s.inst
    · have hbail := place_robot_bail_no_inst
        { s with robot_usd := some r, start_pose := some p } (by simp [hi])
      split_ifs <;>
        first
          | omega
          | (exfalso; simp_all; done)
    · have hload := place_robot_loaded
        { s with robot_usd := some r, start_pose := some p } r (by simp [hi]) (by simp)
      have hlr := hload.1
      split_ifs <;>
        first
          | omega
          | (exfalso; simp_all; done)
  · rw [countEff_append, hreq s,
      hreq ((place_robot { s with robot_usd := some r, start_pose := some p }).1),
      place_robot_setPose_count, place_robot_setPose_count]
    cases hi : s.inst
    · have hbail := place_robot_bail_no_inst
        { s with robot_usd := some r, start_pose := some p } (by simp [hi])
      split_ifs <;>
        first
          | omega
          | (exfalso; simp_all; done)
    · have hload := place_robot_loaded
        { s with robot_usd := some r, start_pose := some p } r (by simp [hi]) (by simp)
      have hlp := hload.2
      have hfix : (place_robot
          { s with robot_usd := some r, start_pose := some p }).1.start_pose =
            some p := by
        obtain ⟨_, _, _, f4, _⟩ := place_robot_fields
          { s with robot_usd := some r, start_pose := some p }
        rw [f4]
      split_ifs <;>
        first
          | omega
          | (exfalso; simp_all; done)

/-- C3 witness: concrete double loads from the fresh state. -/
theorem c3_idempotent_loading_witness :
    countEff isOpenStage ((open_environment (some "env_a.usd") sFresh).2 ++
        (open_environment (some "env_a.usd")
          (open_environment (some "env_a.usd") sFresh).1).2) ≤ 1 :=
  (c3_idempotent_loading "env_a.usd" "carter.usd" DEFAULT_POSE sFresh).1



/-- C9: drift math.  With the placement pose at the origin with identity
orientation and default thresholds (distance 5, yaw 5 degrees),
`check_dirty` returns true for a live pose translated by `(10, 0, 0)` and
false for one translated by `(2, 0, 0)` with zero yaw; in general the
dirty verdict holds iff the planar translation norm of the relative
transform exceeds `DIRTY_EPSILON_DIST` or the absolute yaw exceeds
`DIRTY_EPSILON_YAW` degrees. -/
theorem c9_drift_math :
    check_dirty DEFAULT_POSE ⟨10, 0, 0, 0, 0, 0, 1⟩ ∧
    ¬ check_dirty DEFAULT_POSE ⟨2, 0, 0, 0, 0, 0, 1⟩ ∧
    (∀ (sp : Pose) (live : DcTransform),
      check_dirty sp live ↔
        (planar_norm_exceeds (dirty_delta sp live).t DIRTY_EPSILON_DIST ∨
          yaw_deg_exceeds (dirty_delta sp live).R DIRTY_EPSILON_YAW)) := by
  have hyaw : ¬ yaw_deg_exceeds matId DIRTY_EPSILON_YAW := by
    unfold yaw_deg_exceeds DIRTY_EPSILON_YAW matId
    have h1 : ((⟨((1 : ℚ) : ℝ), ((0 : ℚ) : ℝ)⟩ : ℂ)) = 1 := by
      apply Complex.ext <;> simp
    rw [h1, Complex.arg_one]
    norm_num
  refine ⟨?_, ?_, fun sp live => Iff.rfl⟩
  · have hd : dirty_delta DEFAULT_POSE ⟨10, 0, 0, 0, 0, 0, 1⟩ =
        ⟨matId, ⟨10, 0, 0⟩⟩ := by
      simp only [dirty_delta, se3Mul, se3Inv, _to_SE3, _dc_tf_to_SE3, dirty_scale,
        quatRot, matMul, matT, matVec, matId, vadd, vneg, DEFAULT_POSE]
      norm_num
    unfold check_dirty
    rw [hd]
    left
    unfold planar_norm_exceeds DIRTY_EPSILON_DIST
    have h : (((10 : ℚ) : ℝ) ^ 2 + ((0 : ℚ) : ℝ) ^ 2) = 10 ^ 2 := by
      push_cast; ring
    show Real.sqrt _ > _
    rw [h, Real.sqrt_sq (by norm_num)]
    norm_num
  · have hd : dirty_delta DEFAULT_POSE ⟨2, 0, 0, 0, 0, 0, 1⟩ =
        ⟨matId, ⟨2, 0, 0⟩⟩ := by
      simp only [dirty_delta, se3Mul, se3Inv, _to_SE3, _dc_tf_to_SE3, dirty_scale,
        quatRot, matMul, matT, matVec, matId, vadd, vneg, DEFAULT_POSE]
      norm_num
    have hnorm : ¬ planar_norm_exceeds ⟨2, 0, 0⟩ DIRTY_EPSILON_DIST := by
      unfold planar_norm_exceeds DIRTY_EPSILON_DIST
      have h : (((2 : ℚ) : ℝ) ^ 2 + ((0 : ℚ) : ℝ) ^ 2) = 2 ^ 2 := by
        push_cast; ring
      show ¬ Real.sqrt _ > _
      rw [h, Real.sqrt_sq (by norm_num)]
      norm_num
    unfold check_dirty
    rw [hd]
    rintro (hc | hc)
    · exact hnorm hc
    · exact hyaw hc

end BenchbotSim
